import Mathlib

/-!
Verification development for the BlockDAG node web-monitoring dashboard
(`app.py`).  The Python source is shallowly embedded: the regular
expressions used by the code are modelled by a small backtracking matcher
over `List Char` that follows Python `re` semantics (leftmost match,
ordered alternation, greedy quantifiers, case folding for `re.I`), and the
stateful Flask routes are modelled as explicit state-passing functions over
a process-state record, with the external world (docker invocations and
the wall clock) supplied as a record of inputs.
-/

/-! ### Character classes used by the source's regular expressions -/

/-- Lower-case a character (ASCII case folding, used for `re.I`). -/
def lowerC (c : Char) : Char := c.toLower

/-- Lower-case a character list. -/
def lowerL (l : List Char) : List Char := l.map lowerC

/-- Python `\s`: whitespace characters. -/
def isSpaceChar (c : Char) : Bool :=
  c = ' ' || c = '\t' || c = '\n' || c = '\r' || c = Char.ofNat 11 || c = Char.ofNat 12

/-- Python `\w`: word characters (ASCII letters, digits, underscore). -/
def isWordChar (c : Char) : Bool := c.isAlphanum || c = '_'

/-- The class `[0-9,]` used by the numeric-capture patterns. -/
def digitComma (c : Char) : Bool := c.isDigit || c = ','

/-- The class `[A-Za-z0-9:/._-]` used by the peer-identity patterns. -/
def peerIdChar (c : Char) : Bool :=
  c.isAlphanum || c = ':' || c = '/' || c = '.' || c = '_' || c = '-'

/-- Digits of a decimal numeral to a natural number (Python `int`). -/
def digitsToNat (l : List Char) : Nat :=
  l.foldl (fun a c => a * 10 + (c.toNat - 48)) 0

/-! ### A small regular-expression engine

Only the constructs appearing in `app.py`'s patterns are supported:
literals, single-character classes, concatenation, ordered alternation,
greedy `*`/`+` over a character class, greedy `?`, the word boundary `\b`
and a single capturing group. -/

inductive RE where
  | lit : List Char → RE
  | cls : (Char → Bool) → RE
  | seq : RE → RE → RE
  | alt : RE → RE → RE
  | star : (Char → Bool) → RE
  | plus : (Char → Bool) → RE
  | opt : RE → RE
  | wb : RE
  | grp : RE → RE

/-- Match a literal at the head of the input, returning the remainder.
With `ci` set the comparison is case-insensitive (`re.I`). -/
def litStrip (ci : Bool) : List Char → List Char → Option (List Char)
  | [], cs => some cs
  | _ :: _, [] => none
  | p :: ps, c :: cs =>
      if (if ci then lowerC c = lowerC p else c = p) then litStrip ci ps cs else none

/-- Word-character test on an optional character (`none` = out of input). -/
def isWordOpt : Option Char → Bool
  | some c => isWordChar c
  | none => false

/-- A match candidate: consumed characters, remaining input, captured group. -/
abbrev Cand := List Char × List Char × Option (List Char)

/-- The character preceding the current position after consuming `c1`. -/
def prevAfter (prev : Option Char) (c1 : List Char) : Option Char :=
  match c1.getLast? with
  | some c => some c
  | none => prev

/-- All match candidates of a regex at the head of `cs`, in Python's
backtracking priority order (first candidate = the match `re` would take).
`prev` is the character immediately before the current position (for `\b`). -/
def mtch (ci : Bool) : RE → Option Char → List Char → List Cand
  | .lit p, _, cs =>
      match litStrip ci p cs with
      | some rest => [(cs.take p.length, rest, none)]
      | none => []
  | .cls f, _, cs =>
      match cs with
      | [] => []
      | c :: rest => if f c then [([c], rest, none)] else []
  | .seq a b, prev, cs =>
      (mtch ci a prev cs).flatMap (fun x =>
        (mtch ci b (prevAfter prev x.1) x.2.1).map (fun y =>
          (x.1 ++ y.1, y.2.1, x.2.2 <|> y.2.2)))
  | .alt a b, prev, cs => mtch ci a prev cs ++ mtch ci b prev cs
  | .star f, _, cs =>
      let n := (cs.takeWhile f).length
      (List.range (n + 1)).map (fun k => (cs.take (n - k), cs.drop (n - k), none))
  | .plus f, _, cs =>
      let n := (cs.takeWhile f).length
      (List.range n).map (fun k => (cs.take (n - k), cs.drop (n - k), none))
  | .opt a, prev, cs => mtch ci a prev cs ++ [([], cs, none)]
  | .wb, prev, cs =>
      if isWordOpt prev ≠ isWordOpt cs.head? then [([], cs, none)] else []
  | .grp a, prev, cs => (mtch ci a prev cs).map (fun x => (x.1, x.2.1, some x.1))

/-- One scanning step list of `re.findall`: fuel-indexed scan over the text,
recording for each leftmost non-overlapping match its consumed characters
and its capture.  Mirrors CPython's `findall` position advancement. -/
def findallGo (ci : Bool) (re : RE) : Nat → Option Char → List Char →
    List (List Char × Option (List Char))
  | 0, _, _ => []
  | fuel + 1, prev, cs =>
      match (mtch ci re prev cs).head? with
      | some (consumed, rest, cap) =>
          if consumed.isEmpty then
            (consumed, cap) ::
              (match cs with
               | [] => []
               | c :: cs2 => findallGo ci re fuel (some c) cs2)
          else (consumed, cap) :: findallGo ci re fuel (prevAfter prev consumed) rest
      | none =>
          match cs with
          | [] => []
          | c :: cs2 => findallGo ci re fuel (some c) cs2

/-- `re.findall`: each match's consumed text paired with its capture. -/
def reFindall (ci : Bool) (re : RE) (s : String) : List (List Char × Option (List Char)) :=
  findallGo ci re (s.toList.length + 1) none s.toList

/-- Scanning worker of `re.search`. -/
def searchGo (ci : Bool) (re : RE) : Option Char → List Char → Bool
  | prev, [] => !(mtch ci re prev []).isEmpty
  | prev, c :: cs => !(mtch ci re prev (c :: cs)).isEmpty || searchGo ci re (some c) cs

/-- `re.search` as a Boolean (the source only tests truthiness). -/
def reSearch (ci : Bool) (re : RE) (s : String) : Bool :=
  searchGo ci re none s.toList

/-- Concatenation of a pattern list into one regex. -/
def rcat : List RE → RE
  | [] => RE.lit []
  | [r] => r
  | r :: rs => RE.seq r (rcat rs)

/-- A plain literal word pattern. -/
def wordRE (s : String) : RE := RE.lit s.toList

/-- `\b<word>\b`. -/
def bword (s : String) : RE := rcat [RE.wb, RE.lit s.toList, RE.wb]

/-! ### The concrete patterns of `app.py` -/

/-- `TS_RGX = \d{4}-\d{2}-\d{2}[ T]\d{2}:\d{2}:\d{2}(?:\.\d+)?(?:Z|[+\-]\d{2}:\d{2})?`
(compiled without `re.I`). -/
def dN : Nat → RE
  | 0 => RE.lit []
  | n + 1 => RE.seq (RE.cls Char.isDigit) (dN n)

def TS_RGX : RE :=
  rcat [dN 4, wordRE "-", dN 2, wordRE "-", dN 2,
    RE.cls (fun c => c = ' ' || c = 'T'), dN 2, wordRE ":", dN 2, wordRE ":", dN 2,
    RE.opt (RE.seq (wordRE ".") (RE.plus Char.isDigit)),
    RE.opt (RE.alt (wordRE "Z")
      (rcat [RE.cls (fun c => c = '+' || c = '-'), dN 2, wordRE ":", dN 2]))]

/-- `MINED_PATS = [r'\bmined\b', r'\bmining\s+completed\b']`. -/
def MINED_PATS : List RE :=
  [bword "mined",
   rcat [RE.wb, wordRE "mining", RE.plus isSpaceChar, wordRE "completed", RE.wb]]

/-- `PROCESSED_PATS = [r'\bprocessed\b', r'\baccepted\b', r'\bapplied\b']`. -/
def PROCESSED_PATS : List RE := [bword "processed", bword "accepted", bword "applied"]

/-- `SEALED_PATS = [r'\bsealed\b', r'\bblock\s+sealed\b']`. -/
def SEALED_PATS : List RE :=
  [bword "sealed",
   rcat [RE.wb, wordRE "block", RE.plus isSpaceChar, wordRE "sealed", RE.wb]]

/-- `HEIGHT_PATS`, four keyword-then-number patterns with a `[0-9,]+` capture. -/
def HP1 : RE :=
  rcat [RE.alt (wordRE "height") (RE.alt (wordRE "best height")
          (RE.alt (wordRE "tip height") (RE.alt (wordRE "best") (wordRE "tip")))),
        RE.star (fun c => !c.isDigit), RE.grp (RE.plus digitComma)]

def HP2 : RE :=
  rcat [RE.alt (wordRE "number")
          (RE.alt (rcat [wordRE "block", RE.opt (RE.cls (fun c => c = ' ' || c = '_' || c = '-')),
                         wordRE "number"])
            (RE.alt (wordRE "blk") (wordRE "no."))),
        RE.star (fun c => !c.isDigit), RE.grp (RE.plus digitComma)]

def HP3 : RE := rcat [RE.wb, wordRE "height=", RE.grp (RE.plus digitComma), RE.wb]

def HP4 : RE := rcat [wordRE "block", RE.plus isSpaceChar, RE.grp (RE.plus digitComma)]

def HEIGHT_PATS : List RE := [HP1, HP2, HP3, HP4]

/-- The class `[:=]`. -/
def clsColonEq : RE := RE.cls (fun c => c = ':' || c = '=')

/-- The class `["\']`. -/
def clsQuote : RE := RE.cls (fun c => c = '"' || c = Char.ofNat 39)

/-- The five numeric peer patterns of `parse_peers` (searched with `re.I`). -/
def pn1 : RE :=
  rcat [RE.wb, wordRE "peer", RE.opt (wordRE "s"), RE.star isSpaceChar, clsColonEq,
        RE.star isSpaceChar, RE.grp (RE.plus digitComma), RE.star isSpaceChar, wordRE "/",
        RE.star isSpaceChar, RE.plus digitComma, RE.wb]

def pn2 : RE :=
  rcat [RE.wb, wordRE "connected", RE.plus isSpaceChar,
        RE.opt (RE.seq (wordRE "to") (RE.plus isSpaceChar)),
        RE.grp (RE.plus digitComma), RE.plus isSpaceChar, wordRE "peer",
        RE.opt (wordRE "s"), RE.wb]

def pn3 : RE :=
  rcat [RE.wb,
        RE.alt (wordRE "peer_count") (RE.alt (wordRE "peerCount")
          (RE.alt (wordRE "numPeers") (wordRE "num_peers"))),
        RE.star isSpaceChar, clsColonEq, RE.star isSpaceChar,
        RE.grp (RE.plus digitComma), RE.wb]

def pn4 : RE :=
  rcat [clsQuote,
        RE.alt (wordRE "peerCount") (RE.alt (wordRE "connectedPeers") (wordRE "peers")),
        clsQuote, RE.star isSpaceChar, clsColonEq, RE.star isSpaceChar,
        RE.grp (RE.plus digitComma), RE.wb]

def pn5 : RE :=
  rcat [RE.wb, wordRE "peer", RE.opt (wordRE "s"), RE.star isSpaceChar, clsColonEq,
        RE.star isSpaceChar, RE.grp (RE.plus digitComma), RE.wb]

def PEER_NUM_PATS : List RE := [pn1, pn2, pn3, pn4, pn5]

/-- The two identity-fallback patterns of `parse_peers` (no `re.I`). -/
def pid1 : RE :=
  rcat [RE.wb, wordRE "peer", RE.opt (RE.alt (wordRE "Id") (wordRE "ID")), wordRE "=",
        RE.grp (RE.plus peerIdChar)]

def pid2 : RE :=
  rcat [RE.alt (wordRE "/p2p/") (wordRE "/ipfs/"), RE.grp (RE.plus Char.isAlphanum)]

def PEER_ID_PATS : List RE := [pid1, pid2]

/-- The three patterns of `parse_peer_list` (no `re.I`). -/
def PL_PATS : List RE :=
  [RE.seq (wordRE "peer=") (RE.grp (RE.plus peerIdChar)),
   pid2,
   RE.seq (wordRE "peerId=") (RE.grp (RE.plus Char.isAlphanum))]

/-- `(error|fatal|panic)`, counted with `re.findall(..., re.I)`. -/
def errPat : RE :=
  RE.grp (RE.alt (wordRE "error") (RE.alt (wordRE "fatal") (wordRE "panic")))

/-- `downloading blocks|sync(ing)?|catching up`. -/
def syncPat : RE :=
  RE.alt (wordRE "downloading blocks")
    (RE.alt (RE.seq (wordRE "sync") (RE.opt (RE.grp (wordRE "ing")))) (wordRE "catching up"))

/-- `(mined|mining|accepted|sealed)`. -/
def miningPat : RE :=
  RE.grp (RE.alt (wordRE "mined")
    (RE.alt (wordRE "mining") (RE.alt (wordRE "accepted") (wordRE "sealed"))))

/-- `connected|peers?`. -/
def connPat : RE := RE.alt (wordRE "connected") (RE.seq (wordRE "peer") (RE.opt (wordRE "s")))

/-- `derive_sync_status`'s patterns. -/
def errSimplePat : RE := wordRE "error"

def syncStatusPat : RE := RE.alt (wordRE "sync") (wordRE "downloading block")

def importedPat : RE := wordRE "Imported new chain segment"

/-! ### Pure extraction functions of `app.py` -/

/-- `count_occurrences(pats, text)`: total `re.findall` hits, `re.I`. -/
def count_occurrences (pats : List RE) (text : String) : Nat :=
  (pats.map (fun p => (reFindall true p text).length)).sum

/-- First run of digits in a cleaned capture (`re.search(r'(\d+)', s)`). -/
def firstDigitRun (s : List Char) : Option (List Char) :=
  let t := ((s.dropWhile (fun c => !c.isDigit)).takeWhile Char.isDigit)
  if t.isEmpty then none else some t

/-- `extract_max_int(patterns, text)`: maximum over all captures with
thousands separators and whitespace stripped (the source's tuple branch is
unreachable here because every pattern has exactly one group). -/
def extract_max_int (patterns : List RE) (text : String) : Option Nat :=
  let vals := patterns.flatMap (fun pat =>
    (reFindall true pat text).filterMap (fun mr =>
      let m := mr.2.getD mr.1
      let s := m.filter (fun c => !(c = ',' || isSpaceChar c))
      (firstDigitRun s).map digitsToNat))
  vals.max?

/-- `TS_RGX.findall(text)` as strings. -/
def tsFindall (text : String) : List String :=
  (reFindall false TS_RGX text).map (fun mr => String.mk mr.1)

/-- `derive_health_from_logs(logs)`: empty guard, then error-count gate
(`> 5`), then the syncing / mining / connected keyword chain. -/
def derive_health_from_logs (logs : String) : String × String :=
  if logs = "" then ("unclear", "❔ No logs")
  else
    let n := (reFindall true errPat logs).length
    if 5 < n then ("error", "❌ Errors detected (" ++ toString n ++ "+)")
    else if reSearch true syncPat logs then ("syncing", "⏳ Syncing (downloading blocks)")
    else if reSearch true miningPat logs then ("mining", "✅ Mining/processing activity")
    else if reSearch true connPat logs then ("connected", "🔗 Connected to peers")
    else ("unclear", "❔ Status unclear — check logs")

/-- `derive_sync_status(logs)`. -/
def derive_sync_status (logs : String) : String :=
  if reSearch true errSimplePat logs then "❌ Error"
  else if reSearch true syncStatusPat logs then "⏳ Syncing"
  else if reSearch true importedPat logs then "✅ Synced"
  else "N/A"

/-- The numeric values `parse_peers` collects from its five numeric
patterns (`re.sub(r'[,\s]','',m)` then `s.isdigit()` then `int(s)`). -/
def peerNumericVals (logs : String) : List Nat :=
  PEER_NUM_PATS.flatMap (fun p =>
    (reFindall true p logs).filterMap (fun mr =>
      let s := (mr.2.getD []).filter (fun c => !(c = ',' || isSpaceChar c))
      if !s.isEmpty && s.all Char.isDigit then some (digitsToNat s) else none))

/-- Python `str.strip()` on a character list. -/
def trimWsL (cs : List Char) : List Char :=
  ((cs.dropWhile isSpaceChar).reverse.dropWhile isSpaceChar).reverse

/-- Python `str.rstrip(bad)` on a character list. -/
def stripEndChars (cs : List Char) (bad : List Char) : List Char :=
  ((cs.reverse).dropWhile (fun c => bad.contains c)).reverse

/-- The distinct cleaned peer identities of `parse_peers`'s fallback
(`pid.strip().rstrip('.,;')`, dropped when empty, collected into a set). -/
def peerUniqueIds (logs : String) : List (List Char) :=
  (((PEER_ID_PATS.flatMap (fun p => (reFindall false p logs).filterMap (fun mr => mr.2))).map
      (fun pid => stripEndChars (trimWsL pid) [',', '.', ';'])).filter
    (fun pid => !pid.isEmpty)).dedup

/-- `parse_peers(logs)`: maximum numeric match, else the count of unique
peer identities, else `None`. -/
def parse_peers (logs : String) : Option Nat :=
  match (peerNumericVals logs).max? with
  | some v => some v
  | none =>
      let ids := peerUniqueIds logs
      if ids.isEmpty then none else some ids.length

/-! ### Persisted state and the incremental aggregator -/

/-- The three running totals of `.state.json`. -/
structure Counters where
  mined : Nat
  processed : Nat
  sealed : Nat
deriving Repr, DecidableEq

/-- `PersistedState`: watermark, sticky height, counters. -/
structure PersistedState where
  last_seen_ts : Option String
  last_height : Option Nat
  counters : Counters
deriving Repr, DecidableEq

/-- `_state_default()`. -/
def _state_default : PersistedState :=
  { last_seen_ts := none, last_height := none,
    counters := { mined := 0, processed := 0, sealed := 0 } }

/-- `update_totals_from_logs(state, new_logs)`: early return on the empty
blob, additive counter update, watermark set to the last timestamp found. -/
def update_totals_from_logs (state : PersistedState) (new_logs : String) : PersistedState :=
  if new_logs = "" then state
  else
    let c := state.counters
    let c1 : Counters :=
      { mined := c.mined + count_occurrences MINED_PATS new_logs,
        processed := c.processed + count_occurrences PROCESSED_PATS new_logs,
        sealed := c.sealed + count_occurrences SEALED_PATS new_logs }
    let ts := tsFindall new_logs
    { state with
      counters := c1,
      last_seen_ts :=
        match ts.getLast? with
        | some t => some t
        | none => state.last_seen_ts }

/-! ### `parse_peer_list` -/

/-- One row of the peers table. -/
structure PeerItem where
  id : String
  count : Nat
  full : String
deriving Repr, DecidableEq

/-- Display truncation `pid[:7]+"…"+pid[-3:]` for identities over 14 chars. -/
def shortenPid (pid : List Char) : String :=
  if 14 < pid.length then
    String.mk (pid.take 7) ++ "…" ++ String.mk (pid.drop (pid.length - 3))
  else String.mk pid

/-- Occurrence counts per identity, preserving first-seen insertion order
(Python dict semantics). -/
def countsOf (l : List (List Char)) : List (List Char × Nat) :=
  l.foldl (fun acc pid =>
    if acc.any (fun kv => kv.1 = pid) then
      acc.map (fun kv => if kv.1 = pid then (kv.1, kv.2 + 1) else kv)
    else acc ++ [(pid, 1)]) []

/-- Code-point lexicographic order on identities (Python `str <`). -/
def pidLeB : List Char → List Char → Bool
  | [], _ => true
  | _ :: _, [] => false
  | a :: as_, b :: bs => if a = b then pidLeB as_ bs else decide (a.toNat < b.toNat)

/-- The sort key `(-count, pid)` of `parse_peer_list`. -/
def kvLe (a b : List Char × Nat) : Bool :=
  decide (b.2 < a.2) || (decide (a.2 = b.2) && pidLeB a.1 b.1)

/-- Insert into a sorted list (stable insertion sort). -/
def insSorted (le : (List Char × Nat) → (List Char × Nat) → Bool)
    (x : List Char × Nat) : List (List Char × Nat) → List (List Char × Nat)
  | [] => [x]
  | y :: ys => if le x y then x :: y :: ys else y :: insSorted le x ys

/-- Sort by the `parse_peer_list` key. -/
def insSort (le : (List Char × Nat) → (List Char × Nat) → Bool) :
    List (List Char × Nat) → List (List Char × Nat)
  | [] => []
  | x :: xs => insSorted le x (insSort le xs)

/-- `parse_peer_list(logs, max_items=200)`. -/
def parse_peer_list (logs : String) (max_items : Nat := 200) : List PeerItem :=
  let ids := PL_PATS.flatMap (fun p => (reFindall false p logs).filterMap (fun mr => mr.2))
  let cleaned := (ids.map (fun pid =>
      stripEndChars (trimWsL pid) [',', '.', ';', ':', '[', ']', '(', ')', '{', '}'])).filter
    (fun pid => 6 ≤ pid.length)
  let items := (insSort kvLe (countsOf cleaned)).take max_items
  let out := items.map (fun kv =>
    { id := shortenPid kv.1, count := kv.2, full := String.mk kv.1 : PeerItem })
  if out.isEmpty then
    match parse_peers logs with
    | some n => if 0 < n then
        [{ id := "Connected peers", count := n, full := toString n }] else []
    | none => []
  else out

/-! ### `pretty_local_ts`

The `datetime`/`zoneinfo` library calls are external to the repository and
are modelled arithmetically: days-from-civil conversion, the US-Eastern
daylight-saving rule, and `strftime('%b %d, %Y %I:%M:%S %p %Z')`.  A naive
timestamp (no offset) is treated as UTC here; CPython would interpret it in
the server's local zone, which no claim depends on. -/

/-- Days since 1970-01-01 of a civil date (Hinnant's algorithm). -/
def daysFromCivil (y : Int) (m d : Nat) : Int :=
  let y2 : Int := if m ≤ 2 then y - 1 else y
  let era : Int := (if 0 ≤ y2 then y2 else y2 - 399) / 400
  let yoe : Int := y2 - era * 400
  let mp : Int := (Int.ofNat m + 9) % 12
  let doy : Int := (153 * mp + 2) / 5 + Int.ofNat d - 1
  let doe : Int := yoe * 365 + yoe / 4 - yoe / 100 + doy
  era * 146097 + doe - 719468

/-- Civil date of a days-since-epoch count (Hinnant's algorithm). -/
def civilFromDays (z0 : Int) : Int × Nat × Nat :=
  let z := z0 + 719468
  let era : Int := (if 0 ≤ z then z else z - 146096) / 146097
  let doe : Int := z - era * 146097
  let yoe : Int := (doe - doe / 1460 + doe / 36524 - doe / 146096) / 365
  let y : Int := yoe + era * 400
  let doy : Int := doe - (365 * yoe + yoe / 4 - yoe / 100)
  let mp : Int := (5 * doy + 2) / 153
  let d : Int := doy - (153 * mp + 2) / 5 + 1
  let m : Int := if mp < 10 then mp + 3 else mp - 9
  (if m ≤ 2 then y + 1 else y, m.toNat, d.toNat)

/-- Take exactly `n` digits. -/
def parseDigits : Nat → List Char → Option (Nat × List Char)
  | 0, cs => some (0, cs)
  | _ + 1, [] => none
  | n + 1, c :: cs =>
      if c.isDigit then
        (parseDigits n cs).map (fun r => ((c.toNat - 48) * 10 ^ n + r.1, r.2))
      else none

/-- Expect a literal character. -/
def parseCh (ch : Char) : List Char → Option (List Char)
  | c :: cs => if c = ch then some cs else none
  | [] => none

/-- The trailing-offset grammar `fromisoformat` accepts here: nothing, or
`±HH:MM`.  Result is the offset in minutes. -/
def parseOffset : List Char → Option Int
  | [] => some 0
  | s :: cs =>
      if s = '+' || s = '-' then
        match parseDigits 2 cs with
        | some (hh, cs1) =>
            match parseCh ':' cs1 with
            | some cs2 =>
                match parseDigits 2 cs2 with
                | some (mm, []) =>
                    some ((if s = '-' then -1 else 1) * (Int.ofNat hh * 60 + Int.ofNat mm))
                | _ => none
            | none => none
        | none => none
      else none

/-- The fractional part `(?:\.(\d{1,9}))?` (at most nine digits). -/
def parseFrac (cs : List Char) : List Char :=
  match cs with
  | '.' :: rest =>
      let digs := rest.takeWhile Char.isDigit
      if digs.isEmpty || 9 < digs.length then cs else rest.drop digs.length
  | _ => cs

/-- `_parse_rfc3339_any(ts)` reduced to UTC epoch seconds. -/
def _parse_rfc3339_any (ts : String) : Option Int :=
  if ts = "" then none
  else
    let t := trimWsL ts.toList
    let t := if t.getLast? = some 'Z' then t.dropLast ++ "+00:00".toList else t
    match parseDigits 4 t with
    | none => none
    | some (y, t1) =>
    match parseCh '-' t1 with
    | none => none
    | some t2 =>
    match parseDigits 2 t2 with
    | none => none
    | some (mo, t3) =>
    match parseCh '-' t3 with
    | none => none
    | some t4 =>
    match parseDigits 2 t4 with
    | none => none
    | some (dy, t5) =>
    match parseCh 'T' t5 with
    | none => none
    | some t6 =>
    match parseDigits 2 t6 with
    | none => none
    | some (hh, t7) =>
    match parseCh ':' t7 with
    | none => none
    | some t8 =>
    match parseDigits 2 t8 with
    | none => none
    | some (mi, t9) =>
    match parseCh ':' t9 with
    | none => none
    | some t10 =>
    match parseDigits 2 t10 with
    | none => none
    | some (ss, rest) =>
    match parseOffset (parseFrac rest) with
    | none => none
    | some offMin =>
        some (daysFromCivil (Int.ofNat y) mo dy * 86400 +
          Int.ofNat (hh * 3600 + mi * 60 + ss) - offMin * 60)

/-- Month abbreviations for `%b`. -/
def monthAbbrev (m : Nat) : String :=
  match m with
  | 1 => "Jan" | 2 => "Feb" | 3 => "Mar" | 4 => "Apr" | 5 => "May" | 6 => "Jun"
  | 7 => "Jul" | 8 => "Aug" | 9 => "Sep" | 10 => "Oct" | 11 => "Nov" | _ => "Dec"

/-- Two-digit zero padding. -/
def pad2 (n : Nat) : String := if n < 10 then "0" ++ toString n else toString n

/-- Whether a UTC epoch second falls in US-Eastern daylight-saving time
(second Sunday of March 02:00 EST to first Sunday of November 02:00 EDT). -/
def isEasternDst (t : Int) : Bool :=
  let y := (civilFromDays ((t - 5 * 3600).fdiv 86400)).1
  let dowMar1 := (((daysFromCivil y 3 1 + 4) % 7) + 7) % 7
  let secondSunMar := 1 + ((7 - dowMar1.toNat) % 7) + 7
  let dowNov1 := (((daysFromCivil y 11 1 + 4) % 7) + 7) % 7
  let firstSunNov := 1 + ((7 - dowNov1.toNat) % 7)
  let dstStart := daysFromCivil y 3 secondSunMar * 86400 + 7 * 3600
  let dstEnd := daysFromCivil y 11 firstSunNov * 86400 + 6 * 3600
  decide (dstStart ≤ t) && decide (t < dstEnd)

/-- `strftime('%b %d, %Y %I:%M:%S %p %Z')` in America/New_York. -/
def formatNY (t : Int) : String :=
  let dst := isEasternDst t
  let lt := t + (if dst then -4 else -5) * 3600
  let ymd := civilFromDays (lt.fdiv 86400)
  let secs := (lt.fmod 86400).toNat
  let hh := secs / 3600
  let mi := secs % 3600 / 60
  let ss := secs % 60
  let h12 := if hh % 12 = 0 then 12 else hh % 12
  monthAbbrev ymd.2.1 ++ " " ++ pad2 ymd.2.2 ++ ", " ++ toString ymd.1 ++ " " ++
    pad2 h12 ++ ":" ++ pad2 mi ++ ":" ++ pad2 ss ++ " " ++
    (if hh < 12 then "AM" else "PM") ++ " " ++ (if dst then "EDT" else "EST")

/-- `pretty_local_ts(ts_raw)`. -/
def pretty_local_ts (ts_raw : String) : String :=
  match _parse_rfc3339_any ts_raw with
  | none => if ts_raw = "" then "N/A" else ts_raw
  | some t => formatNY t

/-! ### The routes as explicit state-passing functions

`api_status` touches four external effects: the two wall-clock reads
(`_t.time()` at entry and `time()` in the peers block), the docker
existence check, and the two log fetches plus the container start time.
These are supplied by a `World` record; the process-wide mutable globals
(`_RESP`, `_PEERS_CACHE`) and the durable `.state.json` record form the
`ProcState` threaded through each call. -/

/-- `_RESP_TTL = 2.0`.  Wall-clock times are modelled at integer-second
granularity; both staleness thresholds are integral, so the `≤`
comparisons of the source are unaffected. -/
def _RESP_TTL : Int := 2

/-- `_PEERS_STALE = 90.0`. -/
def _PEERS_STALE : Int := 90

/-- The default container name of the status route. -/
def DEFAULT_CONTAINER : String := "blockdag-testnet-network"

/-- The request parameters of `/api/status`. -/
structure Request where
  container : Option String
  since : String
  tail : Nat
deriving Repr, DecidableEq

/-- The externally observed inputs of one `/api/status` call. -/
structure World where
  tNow : Int
  tPeers : Int
  containerExists : String → Bool
  newLogs : String
  liveLogs : String
  startedAt : String

/-- The success snapshot the route serialises (field for field the dict
built at the end of `api_status`). -/
structure Snapshot where
  ok : Bool
  health_state : String
  health_msg : String
  sync_status : String
  last_log_time_raw : String
  last_log_time_local : String
  peers : String
  peers_list : List PeerItem
  height : String
  height_stale : Bool
  mined_total : Nat
  processed_total : Nat
  sealed_total : Nat
  since : String
  tail : Nat
  container : String
deriving Repr, DecidableEq

/-- Process-wide mutable state: `_RESP`, `_PEERS_CACHE`, `.state.json`. -/
structure ProcState where
  respJson : Option Snapshot
  respTs : Int
  peersVal : Option Nat
  peersTs : Int
  fileState : PersistedState
deriving DecidableEq

/-- The outcome of `/api/status`: a 200 snapshot or the 404 error body. -/
inductive ApiResult where
  | okSnap : Snapshot → ApiResult
  | errNotFound : String → ApiResult
deriving Repr, DecidableEq

/-- HTTP status code of an outcome. -/
def http_status : ApiResult → Nat
  | .okSnap _ => 200
  | .errNotFound _ => 404

/-- The `ok` field of the JSON body. -/
def resultOk : ApiResult → Bool
  | .okSnap s => s.ok
  | .errNotFound _ => false

/-- The `peers` field of a success body. -/
def snapPeers : ApiResult → Option String
  | .okSnap s => some s.peers
  | .errNotFound _ => none

/-- The `height` field of a success body. -/
def snapHeight : ApiResult → Option String
  | .okSnap s => some s.height
  | .errNotFound _ => none

/-- The `height_stale` field of a success body. -/
def snapHeightStale : ApiResult → Option Bool
  | .okSnap s => some s.height_stale
  | .errNotFound _ => none

/-- Lines 232–239 of `api_status` when `pv and pv>0` is false: fall back to
a fresh peers cache, else report `"N/A"` for `None` and the literal value
otherwise.  Returns the peers string and the (unchanged) cache. -/
def peersFallback (pv : Option Nat) (cval : Option Nat) (cts tnow : Int) :
    String × Option Nat × Int :=
  match cval with
  | some c =>
      if tnow - cts ≤ _PEERS_STALE then (toString c, cval, cts)
      else ((match pv with | none => "N/A" | some v => toString v), cval, cts)
  | none => ((match pv with | none => "N/A" | some v => toString v), cval, cts)

/-- The peers block of `api_status` (`if pv and pv>0` caches and reports
the live value, otherwise `peersFallback`). -/
def peersBlock (pv : Option Nat) (cval : Option Nat) (cts tnow : Int) :
    String × Option Nat × Int :=
  match pv with
  | some v => if 0 < v then (toString v, some v, tnow) else peersFallback pv cval cts tnow
  | none => peersFallback pv cval cts tnow

/-- The height block of `api_status`: a live height overwrites the durable
`last_height` and is non-stale; otherwise the durable value (if any) is
served stale; otherwise no height. -/
def heightBlock (h0 : Option Nat) (st : PersistedState) :
    Option Nat × Bool × PersistedState :=
  match h0 with
  | some v => (some v, false, { st with last_height := some v })
  | none =>
      match st.last_height with
      | some v => (some v, true, st)
      | none => (none, false, st)

/-- The cache-miss path of `api_status` (everything after the `_RESP`
check): existence check, incremental aggregation over the new-log fetch,
live-window classification and extraction, snapshot assembly, cache fill. -/
def api_status_build (req : Request) (w : World) (ps : ProcState) :
    ApiResult × ProcState :=
  let container := req.container.getD DEFAULT_CONTAINER
  if w.containerExists container then
    let state1 := update_totals_from_logs ps.fileState w.newLogs
    let live := w.liveLogs
    let hm := derive_health_from_logs live
    let tsl := tsFindall live
    let last_ts :=
      match tsl.getLast? with
      | some t => t
      | none => if w.startedAt ≠ "" then w.startedAt else "N/A"
    let pk := peersBlock (parse_peers live) ps.peersVal ps.peersTs w.tPeers
    let hb := heightBlock (extract_max_int HEIGHT_PATS live) state1
    let state2 := hb.2.2
    let resp : Snapshot :=
      { ok := true
        health_state := hm.1
        health_msg := hm.2
        sync_status := derive_sync_status live
        last_log_time_raw := if last_ts ≠ "" then last_ts else "N/A"
        last_log_time_local := pretty_local_ts (if last_ts ≠ "" then last_ts else "")
        peers := pk.1
        peers_list := parse_peer_list live
        height := match hb.1 with | some v => toString v | none => "N/A"
        height_stale := hb.2.1
        mined_total := state2.counters.mined
        processed_total := state2.counters.processed
        sealed_total := state2.counters.sealed
        since := req.since
        tail := req.tail
        container := container }
    (ApiResult.okSnap resp,
     { respJson := some resp, respTs := w.tNow,
       peersVal := pk.2.1, peersTs := pk.2.2, fileState := state2 })
  else
    (ApiResult.errNotFound ("Container '" ++ container ++ "' not found."), ps)

/-- `api_status()`: the `_RESP` cache short-circuit, else the build path. -/
def api_status (req : Request) (w : World) (ps : ProcState) : ApiResult × ProcState :=
  match ps.respJson with
  | some j =>
      if w.tNow - ps.respTs ≤ _RESP_TTL then (ApiResult.okSnap j, ps)
      else api_status_build req w ps
  | none => api_status_build req w ps

/-- `api_reset_totals()`: write fresh defaults, drop the cached response;
the peers cache and the cached-response timestamp are untouched. -/
def api_reset_totals (ps : ProcState) : String × ProcState :=
  ("Totals reset.", { ps with fileState := _state_default, respJson := none })

/-- The concrete cached snapshot used by the C7 witness. -/
def snapC7 : Snapshot :=
  { ok := true, health_state := "connected", health_msg := "🔗 Connected to peers",
    sync_status := "N/A", last_log_time_raw := "N/A", last_log_time_local := "N/A",
    peers := "5", peers_list := [], height := "17", height_stale := false,
    mined_total := 0, processed_total := 0, sealed_total := 0,
    since := "", tail := 600, container := DEFAULT_CONTAINER }

def psC7 : ProcState :=
  { respJson := some snapC7, respTs := 10, peersVal := none, peersTs := 0,
    fileState := _state_default }

def wC7a : World :=
  { tNow := 11, tPeers := 11, containerExists := fun _ => true,
    newLogs := "irrelevant", liveLogs := "other window", startedAt := "" }

def wC7b : World :=
  { tNow := 12, tPeers := 12, containerExists := fun _ => false,
    newLogs := "", liveLogs := "", startedAt := "" }

/-- The concrete cached snapshot used by the C3 counterexample. -/
def snapC3 : Snapshot :=
  { ok := true, health_state := "mining", health_msg := "✅ Mining/processing activity",
    sync_status := "N/A", last_log_time_raw := "N/A", last_log_time_local := "N/A",
    peers := "3", peers_list := [], height := "42", height_stale := false,
    mined_total := 1, processed_total := 0, sealed_total := 0,
    since := "", tail := 600, container := DEFAULT_CONTAINER }

def psC3 : ProcState :=
  { respJson := some snapC3, respTs := 0, peersVal := none, peersTs := 0,
    fileState := _state_default }

def wC3 : World :=
  { tNow := 1, tPeers := 1, containerExists := fun _ => false,
    newLogs := "", liveLogs := "", startedAt := "" }

def psC3w : ProcState :=
  { respJson := none, respTs := 0, peersVal := none, peersTs := 0,
    fileState := _state_default }

def wC3w : World :=
  { tNow := 50, tPeers := 50, containerExists := fun _ => false,
    newLogs := "", liveLogs := "", startedAt := "" }

def psC2 : ProcState :=
  { respJson := none, respTs := 0, peersVal := some 7, peersTs := 0,
    fileState := _state_default }

def wC2 : World :=
  { tNow := 1, tPeers := 1, containerExists := fun _ => true,
    newLogs := "", liveLogs := "peers: 0", startedAt := "" }

def psC6 : ProcState :=
  { respJson := none, respTs := 0, peersVal := none, peersTs := 0,
    fileState := _state_default }

def wC6 : World :=
  { tNow := 1, tPeers := 1, containerExists := fun _ => true,
    newLogs := "", liveLogs := "imported block height=123 ok", startedAt := "" }

def psC10 : ProcState :=
  { respJson := none, respTs := 0, peersVal := some 9, peersTs := 100,
    fileState := { last_seen_ts := some "2024-01-01 00:00:00", last_height := some 5,
                   counters := { mined := 3, processed := 4, sealed := 5 } } }

def wC10 : World :=
  { tNow := 160, tPeers := 160, containerExists := fun _ => true,
    newLogs := "", liveLogs := "quiet window", startedAt := "" }

def noWb : RE → Bool
  | .wb => false
  | .seq a b => noWb a && noWb b
  | .alt a b => noWb a && noWb b
  | .opt a => noWb a
  | .grp a => noWb a
  | .lit _ => true
  | .cls _ => true
  | .star _ => true
  | .plus _ => true

def anySuffix (f : List Char → Bool) : List Char → Bool
  | [] => f []
  | c :: cs => f (c :: cs) || anySuffix f cs

def startsLitCI (wp : String) (cs : List Char) : Bool := (litStrip true wp.toList cs).isSome

def hasSubCI (text pat : String) : Bool :=
  decide (lowerL pat.toList <:+: lowerL text.toList)

/-- Whether one of the three error keywords starts at this position
(case-insensitively); all three have length 5. -/
def errWordAt (cs : List Char) : Bool :=
  decide (lowerL "error".toList <+: lowerL cs)
  || (decide (lowerL "fatal".toList <+: lowerL cs)
  || decide (lowerL "panic".toList <+: lowerL cs))

/-- Reference count of the non-overlapping leftmost error-keyword hits,
written directly as a scan (the specification-side counterpart of
`re.findall(r'(error|fatal|panic)', logs, re.I)`). -/
def errHitsSpec : List Char → Nat
  | [] => 0
  | c :: cs => if errWordAt (c :: cs) then 1 + errHitsSpec (cs.drop 4) else errHitsSpec cs
termination_by cs => cs.length
decreasing_by
  · simp only [List.length_drop, List.length_cons]; omega
  · simp

/-! ### Sanity examples, helper lemmas and the claim theorems -/

example : reSearch true (wordRE "sync") "Downloading SYNC data" = true := by decide

example : reSearch true (bword "mined") "remined" = false := by decide

example : reSearch true (bword "mined") "x mined!" = true := by decide

example : (reFindall true (RE.grp (RE.alt (wordRE "error") (RE.alt (wordRE "fatal")
    (wordRE "panic")))) "Error fatal ok").length = 2 := by decide

example : parse_peers "peers: 4/8" = some 4 := by decide

example : parse_peers "peerId=abcdef x peerId=ghijkl /p2p/QmXoW" = some 3 := by decide

example : parse_peers "hello world" = none := by decide

example : extract_max_int HEIGHT_PATS "height=1,234,567" = some 1234567 := by decide

example : count_occurrences MINED_PATS "mined one then mined two" = 2 := by decide

example : derive_health_from_logs "error mined" =
    ("mining", "✅ Mining/processing activity") := by decide

example : derive_health_from_logs
    "error error error error error error" =
    ("error", "❌ Errors detected (6+)") := by decide

example : tsFindall "2024-01-02 03:04:05.123Z x 2024-01-02T03:04:06+05:00" =
    ["2024-01-02 03:04:05.123Z", "2024-01-02T03:04:06+05:00"] := by decide

/-! ### Helper lemmas shared between the claim theorems -/

lemma update_totals_counters (s : PersistedState) (b : String) :
    (update_totals_from_logs s b).counters.mined
        = s.counters.mined + count_occurrences MINED_PATS b
  ∧ (update_totals_from_logs s b).counters.processed
        = s.counters.processed + count_occurrences PROCESSED_PATS b
  ∧ (update_totals_from_logs s b).counters.sealed
        = s.counters.sealed + count_occurrences SEALED_PATS b := by
  by_cases hb : b = ""
  · subst hb
    have h1 : count_occurrences MINED_PATS "" = 0 := by decide
    have h2 : count_occurrences PROCESSED_PATS "" = 0 := by decide
    have h3 : count_occurrences SEALED_PATS "" = 0 := by decide
    simp [update_totals_from_logs, h1, h2, h3]
  · simp [update_totals_from_logs, hb]

lemma update_totals_watermark (s : PersistedState) (text : String) :
    (update_totals_from_logs s text).last_seen_ts
      = match (tsFindall text).getLast? with
        | some t => some t
        | none => s.last_seen_ts := by
  by_cases hb : text = ""
  · subst hb
    have h1 : tsFindall "" = [] := by decide
    simp [update_totals_from_logs, h1]
  · simp [update_totals_from_logs, hb]

lemma update_totals_height (s : PersistedState) (text : String) :
    (update_totals_from_logs s text).last_height = s.last_height := by
  by_cases hb : text = "" <;> simp [update_totals_from_logs, hb]

lemma api_build_peers (req : Request) (w : World) (ps : ProcState)
    (hex : w.containerExists (req.container.getD DEFAULT_CONTAINER) = true) :
    snapPeers (api_status_build req w ps).fst
      = some (peersBlock (parse_peers w.liveLogs) ps.peersVal ps.peersTs w.tPeers).1 := by
  simp only [api_status_build, hex, if_true, snapPeers]

lemma api_build_height_facts (req : Request) (w : World) (ps : ProcState)
    (hex : w.containerExists (req.container.getD DEFAULT_CONTAINER) = true) :
    snapHeight (api_status_build req w ps).fst
      = some (match (heightBlock (extract_max_int HEIGHT_PATS w.liveLogs)
              (update_totals_from_logs ps.fileState w.newLogs)).1 with
          | some v => toString v | none => "N/A")
  ∧ snapHeightStale (api_status_build req w ps).fst
      = some (heightBlock (extract_max_int HEIGHT_PATS w.liveLogs)
              (update_totals_from_logs ps.fileState w.newLogs)).2.1
  ∧ (api_status_build req w ps).snd.fileState
      = (heightBlock (extract_max_int HEIGHT_PATS w.liveLogs)
              (update_totals_from_logs ps.fileState w.newLogs)).2.2 := by
  refine ⟨?_, ?_, ?_⟩ <;>
    simp only [api_status_build, hex, if_true, snapHeight, snapHeightStale]

lemma peersBlock_fallback_fresh (pv : Option Nat) (c : Nat) (cts tnow : Int)
    (hpv : pv = none ∨ pv = some 0) (hfresh : tnow - cts ≤ _PEERS_STALE) :
    (peersBlock pv (some c) cts tnow).1 = toString c := by
  rcases hpv with h | h <;> subst h <;> simp [peersBlock, peersFallback, hfresh]

lemma peersBlock_fallback_miss (pv : Option Nat) (cval : Option Nat) (cts tnow : Int)
    (hpv : pv = none ∨ pv = some 0)
    (hmiss : cval = none ∨ ¬ tnow - cts ≤ _PEERS_STALE) :
    (peersBlock pv cval cts tnow).1
      = (match pv with | none => "N/A" | some v => toString v) := by
  rcases hpv with h | h <;> subst h <;>
    rcases hmiss with h2 | h2 <;>
      first
        | (subst h2; simp [peersBlock, peersFallback])
        | (rcases hc : cval with _ | c
           · simp [peersBlock, peersFallback]
           · simp [peersBlock, peersFallback, h2])

/-! ### Claim theorems -/

/-- C4: the incremental aggregation step is additive — each invocation adds
the occurrence counts of the three event-pattern sets over the fetched text
to the existing durable counters; aggregating a blob with exactly two mined
occurrences yields a mined total of 2, and a second aggregation over a
second blob yields 2 plus the second blob's count; totals are cumulative
and never reset between calls. -/
theorem C4_totals_additive :
    (∀ (s : PersistedState) (b : String),
        (update_totals_from_logs s b).counters.mined
            = s.counters.mined + count_occurrences MINED_PATS b
      ∧ (update_totals_from_logs s b).counters.processed
            = s.counters.processed + count_occurrences PROCESSED_PATS b
      ∧ (update_totals_from_logs s b).counters.sealed
            = s.counters.sealed + count_occurrences SEALED_PATS b)
  ∧ count_occurrences MINED_PATS "mined one then mined two" = 2
  ∧ (update_totals_from_logs _state_default "mined one then mined two").counters.mined = 2
  ∧ (update_totals_from_logs
        (update_totals_from_logs _state_default "mined one then mined two")
        "later mined again").counters.mined
      = 2 + count_occurrences MINED_PATS "later mined again" :=
  ⟨fun s b => update_totals_counters s b, by decide, by decide, by decide⟩

/-- C5: the watermark update is total (no failure path) and, for every
persisted state and fetched text, sets `last_seen_ts` to the last timestamp
the grammar finds in the text when one exists — even when that value is
earlier than the current watermark, as the concrete regression instance
shows — and leaves it unchanged when the text has no timestamps. -/
theorem C5_watermark :
    (∀ (s : PersistedState) (text : String),
        (update_totals_from_logs s text).last_seen_ts
          = match (tsFindall text).getLast? with
            | some t => some t
            | none => s.last_seen_ts)
  ∧ (update_totals_from_logs
        { last_seen_ts := some "2025-01-02 03:04:05", last_height := none,
          counters := { mined := 0, processed := 0, sealed := 0 } }
        "2024-01-01 00:00:00 node booted").last_seen_ts
      = some "2024-01-01 00:00:00"
  ∧ (update_totals_from_logs
        { last_seen_ts := some "2025-01-02 03:04:05", last_height := none,
          counters := { mined := 0, processed := 0, sealed := 0 } }
        "no timestamps here").last_seen_ts
      = some "2025-01-02 03:04:05" :=
  ⟨fun s text => update_totals_watermark s text, by decide, by decide⟩

/-- C9: reset is idempotent — two resets in a row both leave the identical
default persisted state (zero counters, null watermark, null height), every
invocation drops the cached response snapshot, and an aggregation step from
the default state counts from zero. -/
theorem C9_reset_idempotent :
    (∀ ps : ProcState,
        (api_reset_totals ps).snd.fileState = _state_default
      ∧ (api_reset_totals (api_reset_totals ps).snd).snd.fileState = _state_default
      ∧ (api_reset_totals (api_reset_totals ps).snd).snd = (api_reset_totals ps).snd
      ∧ (api_reset_totals ps).snd.respJson = none
      ∧ (api_reset_totals (api_reset_totals ps).snd).snd.respJson = none)
  ∧ (∀ b : String,
        (update_totals_from_logs _state_default b).counters.mined
            = count_occurrences MINED_PATS b
      ∧ (update_totals_from_logs _state_default b).counters.processed
            = count_occurrences PROCESSED_PATS b
      ∧ (update_totals_from_logs _state_default b).counters.sealed
            = count_occurrences SEALED_PATS b) := by
  constructor
  · intro ps
    refine ⟨rfl, rfl, rfl, rfl, rfl⟩
  · intro b
    have h := update_totals_counters _state_default b
    simpa [_state_default] using h

/-- C7: while a cached snapshot is younger than the TTL, every status
request receives that identical cached snapshot in full and leaves the
process state untouched, regardless of its own `since`/`tail`/`container`
parameters. -/
theorem C7_response_cache (r1 r2 : Request) (w1 w2 : World) (ps : ProcState)
    (j : Snapshot) (hj : ps.respJson = some j)
    (h1 : w1.tNow - ps.respTs ≤ _RESP_TTL) (h2 : w2.tNow - ps.respTs ≤ _RESP_TTL) :
    api_status r1 w1 ps = (ApiResult.okSnap j, ps)
  ∧ api_status r2 w2 ps = (ApiResult.okSnap j, ps)
  ∧ api_status r1 w1 ps = api_status r2 w2 ps := by
  simp [api_status, hj, h1, h2]

/-- C7 witness: two requests with different `since`/`tail`/`container`
parameters, worlds and clock readings both receive the identical cached
snapshot unchanged. -/
theorem C7_response_cache_witness :
    api_status { container := some "a", since := "5m", tail := 100 } wC7a psC7
        = (ApiResult.okSnap snapC7, psC7)
  ∧ api_status { container := none, since := "", tail := 600 } wC7b psC7
        = (ApiResult.okSnap snapC7, psC7)
  ∧ api_status { container := some "a", since := "5m", tail := 100 } wC7a psC7
        = api_status { container := none, since := "", tail := 600 } wC7b psC7 :=
  C7_response_cache _ _ wC7a wC7b psC7 snapC7 rfl (by decide) (by decide)

/-- C3 counterexample: a request naming a container whose existence check
reports false, arriving while a cached snapshot is fresh, is answered with
`ok = true` and status 200 from the cache — it does not fail with the
claimed not-found condition, so the property does not hold for every
request regardless of prior requests' effects on process state. -/
theorem C3_counterexample :
    wC3.containerExists "ghost" = false
  ∧ (api_status { container := some "ghost", since := "", tail := 600 } wC3 psC3).fst
      = ApiResult.okSnap snapC3
  ∧ resultOk (api_status { container := some "ghost", since := "", tail := 600 } wC3 psC3).fst
      = true
  ∧ http_status (api_status { container := some "ghost", since := "", tail := 600 } wC3 psC3).fst
      = 200 :=
  ⟨rfl, by decide, by decide, by decide⟩

/-- C3 (amended): whenever the short-TTL response cache has no fresh
snapshot, a status request naming a container whose existence check reports
false fails fast with the not-found condition — `ok = false`, an error
message, a 404 status — before any log fetch (the outcome and the process
state are independent of every log-related input of the world). -/
theorem C3_notfound_amended (req : Request) (w : World) (ps : ProcState)
    (hmiss : ps.respJson = none ∨ _RESP_TTL < w.tNow - ps.respTs)
    (hne : w.containerExists (req.container.getD DEFAULT_CONTAINER) = false) :
    api_status req w ps
      = (ApiResult.errNotFound
          ("Container '" ++ req.container.getD DEFAULT_CONTAINER ++ "' not found."), ps)
  ∧ http_status (api_status req w ps).fst = 404
  ∧ resultOk (api_status req w ps).fst = false
  ∧ ∀ nl ll sa : String,
      api_status req { w with newLogs := nl, liveLogs := ll, startedAt := sa } ps
        = api_status req w ps := by
  have hb : ∀ w2 : World, w2.tNow = w.tNow →
      w2.containerExists (req.container.getD DEFAULT_CONTAINER) = false →
      api_status req w2 ps
        = (ApiResult.errNotFound
            ("Container '" ++ req.container.getD DEFAULT_CONTAINER ++ "' not found."), ps) := by
    intro w2 ht hne2
    rcases hmiss with h | h
    · simp [api_status, h, api_status_build, hne2]
    · rcases hj : ps.respJson with _ | j
      · simp [api_status, hj, api_status_build, hne2]
      · have hlt : ¬ w2.tNow - ps.respTs ≤ _RESP_TTL := by
          rw [ht]; exact not_le.mpr h
        simp [api_status, hj, hlt, api_status_build, hne2]
  have h0 := hb w rfl hne
  refine ⟨h0, by rw [h0]; rfl, by rw [h0]; rfl, ?_⟩
  intro nl ll sa
  rw [h0, hb { w with newLogs := nl, liveLogs := ll, startedAt := sa } rfl hne]

/-- C3 witness: with an empty response cache, a request for the
nonexistent container `ghost` gets the 404 not-found body and the state is
unchanged. -/
theorem C3_notfound_amended_witness :
    api_status { container := some "ghost", since := "", tail := 600 } wC3w psC3w
      = (ApiResult.errNotFound "Container 'ghost' not found.", psC3w)
  ∧ http_status (api_status { container := some "ghost", since := "", tail := 600 }
      wC3w psC3w).fst = 404 :=
  ⟨(C3_notfound_amended _ wC3w psC3w (Or.inl rfl) rfl).1,
   (C3_notfound_amended _ wC3w psC3w (Or.inl rfl) rfl).2.1⟩

/-- C2 counterexample: the live window yields the explicit peer count 0,
yet with a fresh cached positive value (7, observed one second ago) the
snapshot reports `"7"`, not the literal `"0"` — an explicit zero does
trigger the cache fallback, contradicting the claim. -/
theorem C2_counterexample :
    parse_peers wC2.liveLogs = some 0
  ∧ snapPeers (api_status { container := none, since := "", tail := 600 } wC2 psC2).fst
      = some "7"
  ∧ ("7" : String) ≠ "0" :=
  ⟨by decide, by decide, by decide⟩

/-- C2 (amended): when the live window's peer extraction yields no signal
*or* an explicit zero, the snapshot falls back to the cached positive value
whenever that cache is younger than the staleness threshold; only when no
fresh cached value exists is the extraction reported as-is — `"N/A"` for an
absent extraction, the literal `"0"` for an explicit zero. -/
theorem C2_peers_amended (req : Request) (w : World) (ps : ProcState)
    (hmiss : ps.respJson = none)
    (hex : w.containerExists (req.container.getD DEFAULT_CONTAINER) = true)
    (hnp : parse_peers w.liveLogs = none ∨ parse_peers w.liveLogs = some 0) :
    (∀ c, ps.peersVal = some c → w.tPeers - ps.peersTs ≤ _PEERS_STALE →
        snapPeers (api_status req w ps).fst = some (toString c))
  ∧ ((ps.peersVal = none ∨ ¬ w.tPeers - ps.peersTs ≤ _PEERS_STALE) →
        snapPeers (api_status req w ps).fst
          = some (match parse_peers w.liveLogs with
                  | none => "N/A" | some v => toString v)) := by
  have hst : api_status req w ps = api_status_build req w ps := by
    simp [api_status, hmiss]
  have hp := api_build_peers req w ps hex
  rw [hst]
  constructor
  · intro c hc hfresh
    rw [hp, hc]
    rw [peersBlock_fallback_fresh _ c _ _ hnp hfresh]
  · intro hm
    rcases hnp with h | h
    · rw [hp, h, peersBlock_fallback_miss none _ _ _ (Or.inl rfl) hm]
    · rw [hp, h, peersBlock_fallback_miss (some 0) _ _ _ (Or.inr rfl) hm]

/-- C2 witness: with a fresh cached value 7 and an explicit zero
extraction, the reported peer count is `"7"`; with no cached value at all
the same window reports the literal `"0"`. -/
theorem C2_peers_amended_witness :
    snapPeers (api_status { container := none, since := "", tail := 600 } wC2 psC2).fst
      = some "7"
  ∧ snapPeers (api_status { container := none, since := "", tail := 600 } wC2
      { psC2 with peersVal := none }).fst = some "0" := by
  constructor
  · have h := (C2_peers_amended { container := none, since := "", tail := 600 } wC2 psC2
      rfl rfl (Or.inr (by decide))).1 7 rfl (by decide)
    simpa using h
  · have h := (C2_peers_amended { container := none, since := "", tail := 600 } wC2
      { psC2 with peersVal := none } rfl rfl (Or.inr (by decide))).2 (Or.inl rfl)
    simpa using h

/-- C6: height stickiness — a live-window height is written to the durable
`last_height` and reported non-stale; a window with no height serves the
durable value (when present) marked stale; with neither, the height is the
`"N/A"` sentinel. -/
theorem C6_height_stickiness (req : Request) (w : World) (ps : ProcState)
    (hmiss : ps.respJson = none)
    (hex : w.containerExists (req.container.getD DEFAULT_CONTAINER) = true) :
    (∀ v, extract_max_int HEIGHT_PATS w.liveLogs = some v →
        snapHeight (api_status req w ps).fst = some (toString v)
      ∧ snapHeightStale (api_status req w ps).fst = some false
      ∧ (api_status req w ps).snd.fileState.last_height = some v)
  ∧ (extract_max_int HEIGHT_PATS w.liveLogs = none →
        (∀ hv, ps.fileState.last_height = some hv →
            snapHeight (api_status req w ps).fst = some (toString hv)
          ∧ snapHeightStale (api_status req w ps).fst = some true
          ∧ (api_status req w ps).snd.fileState.last_height = some hv)
      ∧ (ps.fileState.last_height = none →
            snapHeight (api_status req w ps).fst = some "N/A"
          ∧ snapHeightStale (api_status req w ps).fst = some false)) := by
  have hst : api_status req w ps = api_status_build req w ps := by
    simp [api_status, hmiss]
  obtain ⟨hH, hS, hF⟩ := api_build_height_facts req w ps hex
  have hLH : (update_totals_from_logs ps.fileState w.newLogs).last_height
      = ps.fileState.last_height := update_totals_height _ _
  rw [hst]
  constructor
  · intro v hv
    rw [hv] at hH hS hF
    simp only [heightBlock] at hH hS hF
    exact ⟨hH, hS, by rw [hF]⟩
  · intro hv
    rw [hv] at hH hS hF
    simp only [heightBlock, hLH] at hH hS hF
    constructor
    · intro h0 hh0
      rw [hh0] at hH hS hF
      exact ⟨hH, hS, by rw [hF, hLH, hh0]⟩
    · intro hh0
      rw [hh0] at hH hS
      exact ⟨hH, hS⟩

/-- C6 witness: a live window carrying `height=123` reports `"123"`
non-stale and persists 123 into the durable `last_height`. -/
theorem C6_height_stickiness_witness :
    snapHeight (api_status { container := none, since := "", tail := 600 } wC6 psC6).fst
      = some "123"
  ∧ snapHeightStale (api_status { container := none, since := "", tail := 600 }
      wC6 psC6).fst = some false
  ∧ (api_status { container := none, since := "", tail := 600 }
      wC6 psC6).snd.fileState.last_height = some 123 :=
  (C6_height_stickiness { container := none, since := "", tail := 600 } wC6 psC6
    rfl rfl).1 123 (by decide)

/-- C10: reset clears only the durable state and the cached response — the
process-lifetime peer staleness cache is untouched, so a status request
after a reset whose window yields no positive peer count still reports the
pre-reset cached peer value while it is within the staleness threshold. -/
theorem C10_reset_peers_frame (req : Request) (w : World) (ps : ProcState) (c : Nat)
    (hc : ps.peersVal = some c) (_hpos : 0 < c)
    (hex : w.containerExists (req.container.getD DEFAULT_CONTAINER) = true)
    (hfresh : w.tPeers - ps.peersTs ≤ _PEERS_STALE)
    (hnp : parse_peers w.liveLogs = none ∨ parse_peers w.liveLogs = some 0) :
    (api_reset_totals ps).snd.peersVal = some c
  ∧ (api_reset_totals ps).snd.peersTs = ps.peersTs
  ∧ (api_reset_totals ps).snd.fileState = _state_default
  ∧ snapPeers (api_status req w (api_reset_totals ps).snd).fst = some (toString c) := by
  have h1 : (api_reset_totals ps).snd.peersVal = some c := hc
  refine ⟨h1, rfl, rfl, ?_⟩
  have hmiss : (api_reset_totals ps).snd.respJson = none := rfl
  have hst : api_status req w (api_reset_totals ps).snd
      = api_status_build req w (api_reset_totals ps).snd := by
    simp [api_status, hmiss]
  rw [hst, api_build_peers _ _ _ hex, h1]
  have h2 : (api_reset_totals ps).snd.peersTs = ps.peersTs := rfl
  rw [h2, peersBlock_fallback_fresh _ c _ _ hnp hfresh]

/-- C10 witness: a cached peer count of 9 observed 60 seconds before the
post-reset request survives the reset and is still reported when the new
window has no peer signal. -/
theorem C10_reset_peers_frame_witness :
    (api_reset_totals psC10).snd.peersVal = some 9
  ∧ (api_reset_totals psC10).snd.peersTs = psC10.peersTs
  ∧ (api_reset_totals psC10).snd.fileState = _state_default
  ∧ snapPeers (api_status { container := none, since := "", tail := 600 } wC10
      (api_reset_totals psC10).snd).fst = some "9" :=
  C10_reset_peers_frame { container := none, since := "", tail := 600 } wC10 psC10 9
    rfl (by decide) rfl (by decide) (Or.inl (by decide))

/-- C8: `parse_peers` tries the numeric patterns first and returns the
maximum numeric value collected; only when no numeric match exists at all
does it fall back to the count of unique peer identity substrings, and it
returns nothing when neither exists — the two paths never combine. -/
theorem C8_parse_peers_spec (logs : String) :
    (peerNumericVals logs ≠ [] →
        ∃ m, parse_peers logs = some m ∧ m ∈ peerNumericVals logs
          ∧ ∀ v ∈ peerNumericVals logs, v ≤ m)
  ∧ (peerNumericVals logs = [] →
        parse_peers logs
          = (if (peerUniqueIds logs).isEmpty then none
             else some (peerUniqueIds logs).length)) := by
  constructor
  · intro hne
    rcases hm : (peerNumericVals logs).max? with _ | m
    · rw [List.max?_eq_none_iff] at hm; exact absurd hm hne
    · have h := (List.max?_eq_some_iff (fun a => Nat.le_refl a)
        (fun a b => max_choice a b) (fun a b c => max_le_iff)).mp hm
      exact ⟨m, by simp [parse_peers, hm], h.1, h.2⟩
  · intro he
    have hm : (peerNumericVals logs).max? = none := by
      rw [List.max?_eq_none_iff]; exact he
    simp [parse_peers, hm]

/-- C8 witness: `"peers: 4/8"` yields the numerator 4 (the maximum over all
numeric captures, none of which is 8); a blob with no numeric peer mention
and three distinct identities yields 3 through the fallback; a blob with
neither yields nothing. -/
theorem C8_parse_peers_witness :
    (peerNumericVals "peers: 4/8" ≠ []
      ∧ ∃ m, parse_peers "peers: 4/8" = some m ∧ m ∈ peerNumericVals "peers: 4/8"
          ∧ ∀ v ∈ peerNumericVals "peers: 4/8", v ≤ m)
  ∧ parse_peers "peers: 4/8" = some 4
  ∧ peerNumericVals "peers: 4/8" = [4, 4]
  ∧ parse_peers "peerId=abcdef x peerId=ghijkl /p2p/QmXoW" = some 3
  ∧ peerNumericVals "peerId=abcdef x peerId=ghijkl /p2p/QmXoW" = []
  ∧ parse_peers "hello world" = none :=
  ⟨⟨by decide, (C8_parse_peers_spec _).1 (by decide)⟩,
   by decide, by decide, by decide, by decide, by decide⟩

/-! ### Specification-side predicates for the health classifier -/

lemma litStrip_true_cons (x c : Char) (xs cs : List Char) :
    litStrip true (x :: xs) (c :: cs)
      = if lowerC c = lowerC x then litStrip true xs cs else none := by
  simp [litStrip]

lemma litStrip_isSome_iff (p : List Char) : ∀ cs : List Char,
    (litStrip true p cs).isSome = true ↔ lowerL p <+: lowerL cs := by
  induction p with
  | nil => intro cs; simp [litStrip, lowerL]
  | cons x xs ih =>
      intro cs
      rcases cs with _ | ⟨c, cs⟩
      · simp [litStrip, lowerL]
      · rw [litStrip_true_cons]
        simp only [lowerL, List.map_cons, List.cons_prefix_cons]
        by_cases h : lowerC c = lowerC x
        · rw [if_pos h]
          rw [ih cs]
          simp [lowerL, h, eq_comm]
        · rw [if_neg h]
          simp only [Option.isSome_none, Bool.false_eq_true, false_iff, not_and]
          intro hh
          exact fun _ => h hh.symm

lemma mtch_prev_irrel (ci : Bool) : ∀ r : RE, noWb r = true →
    ∀ (p q : Option Char) (cs : List Char), mtch ci r p cs = mtch ci r q cs := by
  intro r
  induction r with
  | lit l => intro _ p q cs; rfl
  | cls f => intro _ p q cs; rfl
  | seq a b iha ihb =>
      intro h p q cs
      simp only [noWb, Bool.and_eq_true] at h
      simp only [mtch]
      rw [iha h.1 p q]
      congr 1
      funext x
      rw [ihb h.2 (prevAfter p x.1) (prevAfter q x.1)]
  | alt a b iha ihb =>
      intro h p q cs
      simp only [noWb, Bool.and_eq_true] at h
      simp only [mtch, iha h.1 p q, ihb h.2 p q]
  | star f => intro _ p q cs; rfl
  | plus f => intro _ p q cs; rfl
  | opt a ih =>
      intro h p q cs
      simp only [noWb] at h
      simp only [mtch, ih h p q]
  | wb => intro h; simp [noWb] at h
  | grp a ih =>
      intro h p q cs
      simp only [noWb] at h
      simp only [mtch, ih h p q]

lemma searchGo_eq_anySuffix (ci : Bool) (r : RE) (h : noWb r = true) :
    ∀ (prev : Option Char) (cs : List Char),
      searchGo ci r prev cs = anySuffix (fun t => !(mtch ci r none t).isEmpty) cs := by
  intro prev cs
  induction cs generalizing prev with
  | nil => simp [searchGo, anySuffix, mtch_prev_irrel ci r h prev none]
  | cons c cs ih =>
      simp [searchGo, anySuffix, mtch_prev_irrel ci r h prev none, ih (some c)]

lemma anySuffix_congr (f g : List Char → Bool) (h : ∀ t, f t = g t) :
    ∀ cs, anySuffix f cs = anySuffix g cs := by
  intro cs
  induction cs with
  | nil => simp [anySuffix, h]
  | cons c cs ih => simp [anySuffix, h, ih]

lemma anySuffix_or (f g : List Char → Bool) :
    ∀ cs, anySuffix (fun t => f t || g t) cs = (anySuffix f cs || anySuffix g cs) := by
  intro cs
  induction cs with
  | nil => simp [anySuffix]
  | cons c cs ih =>
      simp only [anySuffix, ih]
      by_cases h1 : f (c :: cs) <;> by_cases h2 : g (c :: cs) <;> simp [h1, h2, Bool.or_comm, Bool.or_assoc, Bool.or_left_comm]

lemma hasSub_iff (wp : String) : ∀ cs : List Char,
    anySuffix (fun t => startsLitCI wp t) cs = true ↔ lowerL wp.toList <:+: lowerL cs := by
  intro cs
  induction cs with
  | nil =>
      simp only [anySuffix, startsLitCI, litStrip_isSome_iff, lowerL, List.map_nil]
      rw [List.infix_nil, List.prefix_nil]
  | cons c cs ih =>
      simp only [anySuffix, Bool.or_eq_true, startsLitCI, litStrip_isSome_iff,
        lowerL, List.map_cons]
      rw [List.infix_cons_iff]
      exact or_congr Iff.rfl ih

lemma anySuffix_startsLit (s wp : String) :
    anySuffix (fun t => startsLitCI wp t) s.toList = hasSubCI s wp := by
  have h := hasSub_iff wp s.toList
  unfold hasSubCI
  rcases hb : anySuffix (fun t => startsLitCI wp t) s.toList with _ | _
  · rw [hb] at h
    simp only [Bool.false_eq_true, false_iff] at h
    exact (decide_eq_false h).symm
  · rw [hb] at h
    simp only [true_iff] at h
    exact (decide_eq_true h).symm

lemma mtch_lit_ne (ci : Bool) (p : List Char) (prev : Option Char) (cs : List Char) :
    (!(mtch ci (RE.lit p) prev cs).isEmpty) = (litStrip ci p cs).isSome := by
  simp only [mtch]
  rcases litStrip ci p cs <;> simp

lemma mtch_alt_ne (ci : Bool) (a b : RE) (prev : Option Char) (cs : List Char) :
    (!(mtch ci (RE.alt a b) prev cs).isEmpty)
      = (!(mtch ci a prev cs).isEmpty || !(mtch ci b prev cs).isEmpty) := by
  simp only [mtch]
  rcases mtch ci a prev cs with _ | ⟨y, ys⟩ <;> simp

lemma mtch_grp_ne (ci : Bool) (a : RE) (prev : Option Char) (cs : List Char) :
    (!(mtch ci (RE.grp a) prev cs).isEmpty) = (!(mtch ci a prev cs).isEmpty) := by
  simp only [mtch]
  rcases mtch ci a prev cs with _ | ⟨y, ys⟩ <;> simp

lemma mtch_opt_ne (ci : Bool) (a : RE) (prev : Option Char) (cs : List Char) :
    (!(mtch ci (RE.opt a) prev cs).isEmpty) = true := by
  simp [mtch]

lemma mtch_seq_opt_ne (ci : Bool) (a x : RE) (prev : Option Char) (cs : List Char) :
    (!(mtch ci (RE.seq a (RE.opt x)) prev cs).isEmpty)
      = (!(mtch ci a prev cs).isEmpty) := by
  simp only [mtch, Bool.not_eq_true']
  rcases h : mtch ci a prev cs with _ | ⟨y, ys⟩
  · simp
  · simp [List.flatMap]

lemma syncPat_ne (prev : Option Char) (t : List Char) :
    (!(mtch true syncPat prev t).isEmpty)
      = (startsLitCI "downloading blocks" t
          || (startsLitCI "sync" t || startsLitCI "catching up" t)) := by
  simp only [syncPat, wordRE, mtch_alt_ne, mtch_seq_opt_ne, mtch_lit_ne, startsLitCI]

lemma miningPat_ne (prev : Option Char) (t : List Char) :
    (!(mtch true miningPat prev t).isEmpty)
      = (startsLitCI "mined" t || (startsLitCI "mining" t
          || (startsLitCI "accepted" t || startsLitCI "sealed" t))) := by
  simp only [miningPat, wordRE, mtch_grp_ne, mtch_alt_ne, mtch_lit_ne, startsLitCI]

lemma connPat_ne (prev : Option Char) (t : List Char) :
    (!(mtch true connPat prev t).isEmpty)
      = (startsLitCI "connected" t || startsLitCI "peer" t) := by
  simp only [connPat, wordRE, mtch_alt_ne, mtch_seq_opt_ne, mtch_lit_ne, startsLitCI]

lemma reSearch_syncPat (s : String) :
    reSearch true syncPat s
      = (hasSubCI s "downloading blocks" || (hasSubCI s "sync" || hasSubCI s "catching up")) := by
  rw [reSearch, searchGo_eq_anySuffix true syncPat (by decide)]
  rw [anySuffix_congr _ _ (fun t => syncPat_ne none t)]
  rw [anySuffix_or, anySuffix_or]
  rw [anySuffix_startsLit, anySuffix_startsLit, anySuffix_startsLit]

lemma reSearch_miningPat (s : String) :
    reSearch true miningPat s
      = (hasSubCI s "mined" || (hasSubCI s "mining"
          || (hasSubCI s "accepted" || hasSubCI s "sealed"))) := by
  rw [reSearch, searchGo_eq_anySuffix true miningPat (by decide)]
  rw [anySuffix_congr _ _ (fun t => miningPat_ne none t)]
  rw [anySuffix_or, anySuffix_or, anySuffix_or]
  rw [anySuffix_startsLit, anySuffix_startsLit, anySuffix_startsLit, anySuffix_startsLit]

lemma reSearch_connPat (s : String) :
    reSearch true connPat s = (hasSubCI s "connected" || hasSubCI s "peer") := by
  rw [reSearch, searchGo_eq_anySuffix true connPat (by decide)]
  rw [anySuffix_congr _ _ (fun t => connPat_ne none t)]
  rw [anySuffix_or]
  rw [anySuffix_startsLit, anySuffix_startsLit]

lemma litStrip_some_eq (ci : Bool) : ∀ (p cs r : List Char),
    litStrip ci p cs = some r → r = cs.drop p.length ∧ p.length ≤ cs.length := by
  intro p
  induction p with
  | nil => intro cs r h; simp [litStrip] at h; simp [h]
  | cons x xs ih =>
      intro cs r h
      rcases cs with _ | ⟨c, cs⟩
      · simp [litStrip] at h
      · simp only [litStrip] at h
        by_cases hc : (if ci then lowerC c = lowerC x else c = x : Prop)
        · rw [if_pos hc] at h
          obtain ⟨h3, h4⟩ := ih cs r h
          simp only [List.length_cons, List.drop_succ_cons]
          exact ⟨h3, by omega⟩
        · rw [if_neg hc] at h
          exact absurd h (by simp)

lemma mtch_errPat_head (prev : Option Char) (cs : List Char) :
    (mtch true errPat prev cs).head?
      = if errWordAt cs then some (cs.take 5, cs.drop 5, some (cs.take 5)) else none := by
  simp only [errPat, wordRE, mtch]
  rcases he : litStrip true "error".toList cs with _ | re
  · rcases hf : litStrip true "fatal".toList cs with _ | rf
    · rcases hp : litStrip true "panic".toList cs with _ | rp
      · have hw : errWordAt cs = false := by
          have h1 : ¬ lowerL "error".toList <+: lowerL cs := by
            rw [← litStrip_isSome_iff]; rw [he]; simp
          have h2 : ¬ lowerL "fatal".toList <+: lowerL cs := by
            rw [← litStrip_isSome_iff]; rw [hf]; simp
          have h3 : ¬ lowerL "panic".toList <+: lowerL cs := by
            rw [← litStrip_isSome_iff]; rw [hp]; simp
          rw [errWordAt, decide_eq_false h1, decide_eq_false h2, decide_eq_false h3]
          rfl
        rw [hw]
        rfl
      · have h5 := litStrip_some_eq true _ _ _ hp
        have hw : errWordAt cs = true := by
          have h3 : lowerL "panic".toList <+: lowerL cs := by
            rw [← litStrip_isSome_iff]; rw [hp]; rfl
          rw [errWordAt, decide_eq_true h3]
          simp
        rw [hw, h5.1]
        rfl
    · have h5 := litStrip_some_eq true _ _ _ hf
      have hw : errWordAt cs = true := by
        have h2 : lowerL "fatal".toList <+: lowerL cs := by
          rw [← litStrip_isSome_iff]; rw [hf]; rfl
        rw [errWordAt, decide_eq_true h2]
        simp
      rw [hw, h5.1]
      rfl
  · have h5 := litStrip_some_eq true _ _ _ he
    have hw : errWordAt cs = true := by
      have h1 : lowerL "error".toList <+: lowerL cs := by
        rw [← litStrip_isSome_iff]; rw [he]; rfl
      rw [errWordAt, decide_eq_true h1]
      simp
    rw [hw, h5.1]
    rfl

lemma findallGo_errPat : ∀ (fuel : Nat) (prev : Option Char) (cs : List Char),
    cs.length < fuel →
    (findallGo true errPat fuel prev cs).length = errHitsSpec cs := by
  intro fuel
  induction fuel with
  | zero => intro _ cs h; omega
  | succ n ih =>
      intro prev cs h
      rcases cs with _ | ⟨c, cs⟩
      · have hw : errWordAt [] = false := by decide
        simp [findallGo, mtch_errPat_head, hw, errHitsSpec]
      · simp only [findallGo, mtch_errPat_head]
        by_cases hw : errWordAt (c :: cs) = true
        · rw [if_pos hw]
          simp only [List.take_succ_cons, List.isEmpty_cons, List.drop_succ_cons,
            Bool.false_eq_true, if_false, List.length_cons]
          rw [ih _ (cs.drop 4) (by simp only [List.length_drop, List.length_cons] at h ⊢; omega)]
          rw [errHitsSpec, if_pos hw]
          omega
        · rw [if_neg hw]
          show (findallGo true errPat n (some c) cs).length = _
          rw [ih (some c) cs (by simp only [List.length_cons] at h; omega)]
          rw [errHitsSpec, if_neg hw]

lemma errCount_eq (s : String) :
    (reFindall true errPat s).length = errHitsSpec s.toList :=
  findallGo_errPat (s.toList.length + 1) none s.toList (by omega)

/-- C1 counterexample: a log blob containing one error keyword and one
mining keyword classifies as `mining`, not `error` — the error branch is
gated behind more than five error-keyword occurrences, so the claimed
priority with a disabled (threshold = 1) error gate fails. -/
theorem C1_counterexample :
    derive_health_from_logs "error while mined"
      = ("mining", "✅ Mining/processing activity")
  ∧ (derive_health_from_logs "error while mined").fst ≠ "error"
  ∧ (reFindall true errPat "error while mined").length = 1 :=
  ⟨by decide, by decide, by decide⟩

/-- C1 (amended): for every log blob, the classifier returns `unclear` on
the empty blob; returns `error` exactly when strictly more than five
error/fatal/panic occurrences are found (a fixed gate, not a disabled
threshold of 1); otherwise checks, in order, for a syncing keyword, a
mining keyword and a connected/peers keyword, returning on the first
case-insensitive substring hit; and returns `unclear` when none match.  In
particular a blob with at most five error occurrences and a mining keyword
classifies as `mining`, not `error`. -/
theorem C1_health_amended (logs : String) :
    derive_health_from_logs logs =
      if logs = "" then ("unclear", "❔ No logs")
      else if 5 < errHitsSpec logs.toList then
        ("error", "❌ Errors detected (" ++ toString (errHitsSpec logs.toList) ++ "+)")
      else if hasSubCI logs "downloading blocks" || (hasSubCI logs "sync"
          || hasSubCI logs "catching up") then ("syncing", "⏳ Syncing (downloading blocks)")
      else if hasSubCI logs "mined" || (hasSubCI logs "mining" || (hasSubCI logs "accepted"
          || hasSubCI logs "sealed")) then ("mining", "✅ Mining/processing activity")
      else if hasSubCI logs "connected" || hasSubCI logs "peer" then
        ("connected", "🔗 Connected to peers")
      else ("unclear", "❔ Status unclear — check logs") := by
  simp only [derive_health_from_logs]
  rw [errCount_eq, reSearch_syncPat, reSearch_miningPat, reSearch_connPat]
